import Mathlib

/-!
Verification of the `form-to-sheet` job-tracking application.

The development shallowly embeds the three components of the system:
* the client page (`src/app/page.tsx`): form state, the `onSubmit` flow,
  the `fetchSheetData` reshaping of raw sheet rows into display records,
  and the status-styling ternary chain;
* the write endpoint (`POST` in the submit route): building the 14-column
  row and forwarding it to the spreadsheet append operation;
* the read endpoint (`GET` in the sheet-data route): fetching the range
  and shaping the success/failure responses.

JavaScript values that can appear in a sheet cell (string, number,
boolean, null, undefined) are modelled by the inductive `Cell`, and the
JavaScript truthiness coercion used by the `row[i] || ''` defaults is
modelled explicitly by `Cell.truthy`.
-/

/-- A JavaScript value occurring as a cell of the 2D array returned by the
sheets API: `(string | number | boolean | null | undefined)` as annotated
in `fetchSheetData`.  Numbers are modelled as integers (the sheet values
relevant to truthiness are exact). -/
inductive Cell where
  | str (s : String)
  | num (n : Int)
  | bool (b : Bool)
  | null
  | undefined
deriving DecidableEq, Repr

/-- JavaScript truthiness of a `Cell`: `''`, `0`, `false`, `null` and
`undefined` are falsy, everything else is truthy. -/
def Cell.truthy : Cell → Bool
  | .str s => !(s = "")
  | .num n => !(n = 0)
  | .bool b => b
  | .null => false
  | .undefined => false

/-- The JavaScript expression `c || ''`: the cell itself when truthy, the
empty string otherwise. -/
def Cell.orEmpty (c : Cell) : Cell :=
  if c.truthy then c else .str ""

/-- JavaScript array indexing `row[i]`: the element when the index is in
bounds, `undefined` otherwise. -/
def rowGet (row : List Cell) (i : Nat) : Cell :=
  row.getD i .undefined

/-- The `SheetRow` interface of `page.tsx`: a display record with a derived
sequence number and thirteen positional fields.  The fields hold `Cell`
values because `row[i] || ''` passes a truthy number or boolean through
unchanged. -/
structure SheetRow where
  sno : String
  jobNumber : Cell
  customerName : Cell
  jobName : Cell
  jobLocation : Cell
  salesPerson : Cell
  jobSize : Cell
  quantity : Cell
  jobCategory : Cell
  jobBookedDate : Cell
  jobStatus : Cell
  deliveryDate : Cell
  deliveryDetails : Cell
  remark : Cell
deriving DecidableEq, Repr

/-- The per-row mapping of `fetchSheetData`: builds one `SheetRow` from a
raw row and its 0-based index in the post-header slice. -/
def mapRow (row : List Cell) (index : Nat) : SheetRow :=
  { sno := toString (index + 1)
  , jobNumber := (rowGet row 0).orEmpty
  , customerName := (rowGet row 1).orEmpty
  , jobName := (rowGet row 2).orEmpty
  , jobLocation := (rowGet row 3).orEmpty
  , salesPerson := (rowGet row 4).orEmpty
  , jobSize := (rowGet row 5).orEmpty
  , quantity := (rowGet row 6).orEmpty
  , jobCategory := (rowGet row 7).orEmpty
  , jobBookedDate := (rowGet row 8).orEmpty
  , jobStatus := (rowGet row 9).orEmpty
  , deliveryDate := (rowGet row 10).orEmpty
  , deliveryDetails := (rowGet row 11).orEmpty
  , remark := (rowGet row 12).orEmpty }

/-- The `rows.map((row, index) => ...)` traversal starting from index `i`. -/
def mapRowsFrom (i : Nat) : List (List Cell) → List SheetRow
  | [] => []
  | r :: rs => mapRow r i :: mapRowsFrom (i + 1) rs

/-- The reshaping performed by `fetchSheetData` on the 2D array `data.data`
returned by the read endpoint: `data.data.slice(1).map((row, index) => ...)`. -/
def fetchSheetRows (data : List (List Cell)) : List SheetRow :=
  mapRowsFrom 0 (data.drop 1)

/-- The view tab shows the empty-state prompt exactly when the loaded
record list is empty (`sheetData.length > 0` is the table condition). -/
def showsEmptyState (rows : List SheetRow) : Bool :=
  rows.isEmpty

/-- The status-styling ternary chain of the view table:
`row.jobStatus === 'Completed' ? ... : row.jobStatus === 'In Progress'
? ... : row.jobStatus === 'Delivered' ? ... : ...`. -/
def statusClass (s : String) : String :=
  if s = "Completed" then "bg-green-100 text-green-800"
  else if s = "In Progress" then "bg-yellow-100 text-yellow-800"
  else if s = "Delivered" then "bg-blue-100 text-blue-800"
  else "bg-gray-100 text-gray-800"

/-! ## Form data and the client submit flow -/

/-- The `FormData` shape inferred from the zod schema: twelve required
string fields plus the optional `remark` (absent ↦ `none`). -/
structure FormData where
  jobNumber : String
  customerName : String
  jobName : String
  jobLocation : String
  salesPerson : String
  jobSize : String
  quantity : String
  jobCategory : String
  jobBookedDate : String
  jobStatus : String
  deliveryDate : String
  deliveryDetails : String
  remark : Option String
deriving DecidableEq, Repr

/-- The form state produced by `reset()` with no default values: every
field empty / absent. -/
def emptyFormData : FormData :=
  { jobNumber := "", customerName := "", jobName := "", jobLocation := ""
  , salesPerson := "", jobSize := "", quantity := "", jobCategory := ""
  , jobBookedDate := "", jobStatus := "", deliveryDate := ""
  , deliveryDetails := "", remark := none }

/-- The JavaScript expression `o || d` for an optional string `o`: the
string when present and non-empty, the default otherwise. -/
def jsOrStr (o : Option String) (d : String) : String :=
  match o with
  | some s => if s = "" then d else s
  | none => d

/-- Decimal digit character for `n < 10`. -/
def digitChar (n : Nat) : Char :=
  Char.ofNat (48 + n % 10)

/-- Two-digit zero-padded decimal rendering, as used by `toISOString` for
month, day, hour, minute, second. -/
def pad2 (n : Nat) : String :=
  String.mk [digitChar (n / 10), digitChar n]

/-- Three-digit zero-padded decimal rendering (milliseconds). -/
def pad3 (n : Nat) : String :=
  String.mk [digitChar (n / 100), digitChar (n / 10), digitChar n]

/-- Four-digit zero-padded decimal rendering (years 0000–9999). -/
def pad4 (n : Nat) : String :=
  String.mk [digitChar (n / 1000), digitChar (n / 100), digitChar (n / 10), digitChar n]

/-- A calendar date. -/
structure CivilDate where
  year : Nat
  month : Nat
  day : Nat
deriving DecidableEq, Repr

/-- The date part of `toISOString` for a date in years 0000–9999:
`YYYY-MM-DD`. -/
def formatIsoDate (d : CivilDate) : String :=
  pad4 d.year ++ "-" ++ pad2 d.month ++ "-" ++ pad2 d.day

/-- Is `c` an ASCII decimal digit? -/
def isDigit (c : Char) : Bool :=
  48 ≤ c.toNat && c.toNat ≤ 57

/-- Numeric value of a digit character. -/
def digitVal (c : Char) : Nat :=
  c.toNat - 48

/-- ECMAScript parsing of a date-only character sequence in the Date Time
String Format, `YYYY-MM-DD`: exactly ten characters, digits in the year,
month and day positions, dashes between, month in 1–12 and day in
1–(days in month).  Any other sequence yields an invalid date (`none`). -/
def parseIsoDateList : List Char → Option CivilDate
  | [y1, y2, y3, y4, h1, m1, m2, h2, d1, d2] =>
    if isDigit y1 && isDigit y2 && isDigit y3 && isDigit y4 &&
       h1 = '-' && isDigit m1 && isDigit m2 && h2 = '-' &&
       isDigit d1 && isDigit d2 then
      let y := digitVal y1 * 1000 + digitVal y2 * 100 + digitVal y3 * 10 + digitVal y4
      let mo := digitVal m1 * 10 + digitVal m2
      let d := digitVal d1 * 10 + digitVal d2
      let isLeap := (y % 4 = 0 && y % 100 ≠ 0) || y % 400 = 0
      let dim : Nat :=
        if mo = 2 then (if isLeap then 29 else 28)
        else if mo = 4 || mo = 6 || mo = 9 || mo = 11 then 30
        else 31
      if 1 ≤ mo && mo ≤ 12 && 1 ≤ d && d ≤ dim then
        some { year := y, month := mo, day := d }
      else none
    else none
  | _ => none

/-- ECMAScript parsing of a date-only string: `parseIsoDateList` over the
string's characters.  A date-only string is interpreted as UTC midnight,
so the calendar date carried to `toISOString` is exactly the parsed
triple. -/
def parseIsoDate (s : String) : Option CivilDate :=
  parseIsoDateList s.data

/-- The composite `new Date(s).toISOString().split('T')[0]` for a date-only input
string: parsing a valid `YYYY-MM-DD` string yields that calendar date at
UTC midnight, and `toISOString` renders the same UTC calendar date back;
an invalid date makes `toISOString` throw (`none`). -/
def jsDateToIsoDatePart (s : String) : Option String :=
  (parseIsoDate s).map formatIsoDate

/-- The `formattedData` object built in `onSubmit`: the two date fields
are replaced by `x ? new Date(x).toISOString().split('T')[0] : ''`, all
other fields are spread through unchanged.  A throwing date conversion is
modelled by `none` (the submission fails before any request is sent). -/
def formatFormData (f : FormData) : Option FormData :=
  Option.bind
    (if f.jobBookedDate = "" then some ""
     else jsDateToIsoDatePart f.jobBookedDate)
    (fun jb => Option.bind
      (if f.deliveryDate = "" then some ""
       else jsDateToIsoDatePart f.deliveryDate)
      (fun dd => some { f with jobBookedDate := jb, deliveryDate := dd }))

/-! ## The write endpoint (`POST` of the submit route) -/

/-- A date-time as decomposed by `toISOString` (UTC components). -/
structure DateTime where
  year : Nat
  month : Nat
  day : Nat
  hour : Nat
  minute : Nat
  second : Nat
  millis : Nat
deriving DecidableEq, Repr

/-- The rendering `new Date().toISOString()` for a server clock reading in years
0000–9999: `YYYY-MM-DDTHH:mm:ss.sssZ`. -/
def toISOString (t : DateTime) : String :=
  pad4 t.year ++ "-" ++ pad2 t.month ++ "-" ++ pad2 t.day ++ "T" ++
  pad2 t.hour ++ ":" ++ pad2 t.minute ++ ":" ++ pad2 t.second ++ "." ++
  pad3 t.millis ++ "Z"

/-- The `rowData` array built by the write endpoint: the thirteen input
fields in the fixed column order, `body.remark || ''` for the optional
remark, then the server-computed submission timestamp. -/
def buildRowData (body : FormData) (submissionDate : String) : List String :=
  [ body.jobNumber, body.customerName, body.jobName, body.jobLocation
  , body.salesPerson, body.jobSize, body.quantity, body.jobCategory
  , body.jobBookedDate, body.jobStatus, body.deliveryDate
  , body.deliveryDetails, jsOrStr body.remark "", submissionDate ]

/-- The single append request issued by the write endpoint: the fixed
range and the one-row `values` payload. -/
structure AppendCall where
  range : String
  values : List (List String)
deriving DecidableEq, Repr

/-- The append call made by `POST`: range `Sheet1!A:N`, values
`[rowData]`. -/
def postAppendCall (body : FormData) (now : DateTime) : AppendCall :=
  { range := "Sheet1!A:N", values := [buildRowData body (toISOString now)] }

/-- The JSON response of the write endpoint, with its HTTP status. -/
structure PostResponse (α : Type) where
  success : Bool
  message : String
  data : Option α
  error : Option String
  status : Nat
deriving DecidableEq, Repr

/-- The write endpoint `POST`: builds the row, issues exactly one append
call, and returns 200 with the backend's raw append response on success,
or 500 with the error detail when anything in the `try` block throws
(auth failure, network failure, malformed credentials, backend error). -/
def submitPOST {α : Type} (body : FormData) (now : DateTime)
    (backend : AppendCall → Except String α) : PostResponse α :=
  match backend (postAppendCall body now) with
  | .ok d =>
    { success := true, message := "Job entry submitted successfully!"
    , data := some d, error := none, status := 200 }
  | .error e =>
    { success := false, message := "Failed to submit job entry"
    , data := none, error := some e, status := 500 }

/-- The list of append calls the write endpoint performs for one request:
always exactly the one call, never a retry. -/
def submitPOSTAppendCalls (body : FormData) (now : DateTime) : List AppendCall :=
  [postAppendCall body now]

/-! ## The read endpoint (`GET` of the sheet-data route) -/

/-- The JSON response of the read endpoint, with its HTTP status.  The
success response carries only `success` and `data`; the failure response
carries only `success` and `message`. -/
structure GetResponse where
  success : Bool
  data : Option (List (List Cell))
  message : Option String
  status : Nat
deriving DecidableEq, Repr

/-- Outcome of the backend range read as seen inside the `try` block:
either a response whose `data.values` may be absent, or a thrown error
(auth failure, backend rejection) with its detail. -/
inductive ReadBackend where
  | ok (values : Option (List (List Cell)))
  | threw (msg : String)

/-- The read endpoint `GET`: throws when `GOOGLE_SHEET_ID` is unset (or
empty, by JavaScript truthiness) before any backend call, otherwise reads
the fixed range `Sheet1!A:O` and returns
`{ success: true, data: response.data.values || [] }`; every caught error
becomes the single generic 500 response
`{ success: false, message: 'Failed to fetch sheet data' }` with the
error detail only logged, never returned. -/
def sheetDataGET (spreadsheetId : Option String)
    (backend : ReadBackend) : GetResponse :=
  if jsOrStr spreadsheetId "" = "" then
    { success := false, data := none
    , message := some "Failed to fetch sheet data", status := 500 }
  else
    match backend with
    | .ok values =>
      { success := true, data := some (values.getD []), message := none
      , status := 200 }
    | .threw _ =>
      { success := false, data := none
      , message := some "Failed to fetch sheet data", status := 500 }

/-- The fixed range the read endpoint requests: columns A to O. -/
def sheetDataRange : String := "Sheet1!A:O"

/-! ## The client `onSubmit` flow and the tab state machine -/

/-- The active tab of the presentation layer. -/
inductive TabType where
  | add
  | view
deriving DecidableEq, Repr

/-- What the client's `fetch('/api/submit')` + `response.json()` sequence
produced, as seen by `onSubmit`: an ok response (with the parsed
`message` field, possibly absent), a non-ok response (its `message` used
for the thrown error), or a throw from `fetch`/`json` itself (network or
parse failure, carrying the `Error` message). -/
inductive SubmitFetchOutcome where
  | ok (message : Option String)
  | notOk (message : Option String)
  | threw (errMessage : String)
deriving DecidableEq, Repr

/-- The observable effects of one run of `onSubmit` after the request
settles: how many times `reset()` ran, how many times `fetchSheetData()`
ran, and the banner passed to `setSubmitStatus`. -/
structure SubmitEffects where
  resetCalls : Nat
  fetchCalls : Nat
  banner : Option (Bool × String)
deriving DecidableEq, Repr

/-- The `onSubmit` handler of the page, given the active tab and the
outcome of the submit request.  On an ok response it sets the success
banner, calls `reset()` once, and calls `fetchSheetData()` exactly when
the active tab is the view tab.  A non-ok response throws
`Error(result.message || 'Failed to submit job entry')`, and the catch
block sets a failure banner from the error message; nothing is reset and
no fetch is made. -/
def onSubmitEffects (activeTab : TabType) (r : SubmitFetchOutcome) :
    SubmitEffects :=
  match r with
  | .ok m =>
    { resetCalls := 1
    , fetchCalls := if activeTab = .view then 1 else 0
    , banner := some (true, jsOrStr m "Job entry submitted successfully!") }
  | .notOk m =>
    { resetCalls := 0, fetchCalls := 0
    , banner := some (false, jsOrStr m "Failed to submit job entry") }
  | .threw e =>
    { resetCalls := 0, fetchCalls := 0, banner := some (false, e) }

/-- Whether the submit request succeeded (`response.ok`). -/
def SubmitFetchOutcome.isOk : SubmitFetchOutcome → Bool
  | .ok _ => true
  | _ => false

/-- The form field state after `onSubmit` finishes: `reset()` clears every
field, otherwise the fields are untouched. -/
def formAfterSubmit (f : FormData) (e : SubmitEffects) : FormData :=
  if e.resetCalls = 0 then f else emptyFormData

/-- A session of the presentation layer, as far as the view tab's fetches
are concerned: the active tab, whether the view tab has ever been active
(history, for stating the refresh claim), and how many times
`fetchSheetData` has run. -/
structure Session where
  activeTab : TabType
  visitedView : Bool
  fetchCount : Nat
deriving DecidableEq, Repr

/-- The initial session: the add tab is active, the view tab has never
been visited, no fetch has run. -/
def initSession : Session :=
  { activeTab := .add, visitedView := false, fetchCount := 0 }

/-- Clicking a tab button: `setActiveTab(t)`.  If the tab actually
changes, the `useEffect` on `[activeTab]` runs and calls `fetchSheetData`
exactly when the new tab is the view tab (React bails out when the state
is unchanged). -/
def switchTab (s : Session) (t : TabType) : Session :=
  if t = s.activeTab then s
  else
    { activeTab := t
    , visitedView := s.visitedView || (t = .view)
    , fetchCount := s.fetchCount + (if t = .view then 1 else 0) }

/-- The session after a successful submission: `onSubmit`'s success path
runs `fetchSheetData()` exactly when `activeTab === 'view'` at that
moment. -/
def submitSuccess (s : Session) : Session :=
  { s with fetchCount := s.fetchCount + (if s.activeTab = .view then 1 else 0) }

/-- How many re-fetches one successful submission triggers from session
state `s`. -/
def submitFetchDelta (s : Session) : Nat :=
  (submitSuccess s).fetchCount - s.fetchCount

/-! ## Sample inputs used by witnesses -/

/-- A fully populated form. -/
def sampleForm : FormData :=
  { jobNumber := "J001", customerName := "Acme", jobName := "Banners"
  , jobLocation := "Plant 2", salesPerson := "Lee", jobSize := "A2"
  , quantity := "150", jobCategory := "Print", jobBookedDate := "2024-01-15"
  , jobStatus := "Pending", deliveryDate := "2024-02-01"
  , deliveryDetails := "Courier to site", remark := none }

/-- A server clock reading. -/
def sampleNow : DateTime :=
  { year := 2024, month := 1, day := 15, hour := 9, minute := 30
  , second := 5, millis := 250 }

/-! ## Claim theorems -/

/-- C7: the status styling is a total function on strings mapping
`Completed` to the green class, `In Progress` to the yellow class,
`Delivered` to the blue class, and every other string to the neutral
gray class. -/
theorem status_styling_total :
    statusClass "Completed" = "bg-green-100 text-green-800" ∧
    statusClass "In Progress" = "bg-yellow-100 text-yellow-800" ∧
    statusClass "Delivered" = "bg-blue-100 text-blue-800" ∧
    ∀ s : String, s ≠ "Completed" → s ≠ "In Progress" → s ≠ "Delivered" →
      statusClass s = "bg-gray-100 text-gray-800" := by
  refine ⟨rfl, rfl, rfl, ?_⟩
  intro s h1 h2 h3
  simp [statusClass, h1, h2, h3]

/-- Witness for C7 at the out-of-set status `SomethingElse`. -/
theorem status_styling_total_witness :
    statusClass "SomethingElse" = "bg-gray-100 text-gray-800" :=
  status_styling_total.2.2.2 "SomethingElse"
    (by decide) (by decide) (by decide)

/-- C5: the write endpoint answers 200 with
`{ success: true, message, data }` exactly when the backend append
succeeds, answers 500 with `{ success: false, message, error }` on any
thrown failure, and performs exactly one append call (no retry). -/
theorem write_endpoint_response_spec :
    ∀ (α : Type) (body : FormData) (now : DateTime)
      (backend : AppendCall → Except String α),
    (∀ d : α, backend (postAppendCall body now) = .ok d →
      submitPOST body now backend =
        { success := true, message := "Job entry submitted successfully!"
        , data := some d, error := none, status := 200 }) ∧
    (∀ e : String, backend (postAppendCall body now) = .error e →
      submitPOST body now backend =
        { success := false, message := "Failed to submit job entry"
        , data := none, error := some e, status := 500 }) ∧
    (submitPOSTAppendCalls body now).length = 1 := by
  intro α body now backend
  refine ⟨?_, ?_, rfl⟩
  · intro d h
    simp [submitPOST, h]
  · intro e h
    simp [submitPOST, h]

/-- Witness for C5: a succeeding and a failing backend at a concrete
request. -/
theorem write_endpoint_response_spec_witness :
    submitPOST sampleForm sampleNow (fun _ => (Except.ok 7 : Except String Nat)) =
      { success := true, message := "Job entry submitted successfully!"
      , data := some 7, error := none, status := 200 } ∧
    submitPOST sampleForm sampleNow
        (fun _ => (Except.error "invalid_grant" : Except String Nat)) =
      { success := false, message := "Failed to submit job entry"
      , data := none, error := some "invalid_grant", status := 500 } :=
  ⟨(write_endpoint_response_spec Nat sampleForm sampleNow _).1 7 rfl,
   (write_endpoint_response_spec Nat sampleForm sampleNow _).2.1 "invalid_grant" rfl⟩

/-- C6: the read endpoint returns `{ success: true, data }` on success
with absent backend values degraded to the empty array, and on every
failure (missing configuration or a thrown backend error) returns the one
generic 500 response whose message carries no error detail. -/
theorem read_endpoint_response_spec :
    ∀ (sid : Option String),
    (jsOrStr sid "" ≠ "" → ∀ values : Option (List (List Cell)),
      sheetDataGET sid (.ok values) =
        { success := true, data := some (values.getD []), message := none
        , status := 200 }) ∧
    (jsOrStr sid "" ≠ "" →
      sheetDataGET sid (.ok none) =
        { success := true, data := some [], message := none, status := 200 }) ∧
    (∀ b : ReadBackend, jsOrStr sid "" = "" →
      sheetDataGET sid b =
        { success := false, data := none
        , message := some "Failed to fetch sheet data", status := 500 }) ∧
    (∀ e : String,
      sheetDataGET sid (.threw e) =
        { success := false, data := none
        , message := some "Failed to fetch sheet data", status := 500 }) ∧
    (∀ e1 e2 : String,
      sheetDataGET sid (.threw e1) = sheetDataGET sid (.threw e2)) := by
  intro sid
  refine ⟨?_, ?_, ?_, ?_, ?_⟩
  · intro h values
    simp [sheetDataGET, h]
  · intro h
    simp [sheetDataGET, h]
  · intro b h
    simp [sheetDataGET, h]
  · intro e
    by_cases h : jsOrStr sid "" = "" <;> simp [sheetDataGET, h]
  · intro e1 e2
    by_cases h : jsOrStr sid "" = "" <;> simp [sheetDataGET, h]

/-- Witness for C6 at a configured sheet id, with present values, absent
values, a thrown backend error, and a missing configuration. -/
theorem read_endpoint_response_spec_witness :
    sheetDataGET (some "sheet-1") (.ok (some [[Cell.str "Job#"]])) =
      { success := true, data := some [[Cell.str "Job#"]], message := none
      , status := 200 } ∧
    sheetDataGET (some "sheet-1") (.ok none) =
      { success := true, data := some [], message := none, status := 200 } ∧
    sheetDataGET none (.ok (some [])) =
      { success := false, data := none
      , message := some "Failed to fetch sheet data", status := 500 } ∧
    sheetDataGET (some "sheet-1") (.threw "invalid_grant") =
      { success := false, data := none
      , message := some "Failed to fetch sheet data", status := 500 } :=
  ⟨(read_endpoint_response_spec (some "sheet-1")).1 (by decide) (some [[Cell.str "Job#"]]),
   (read_endpoint_response_spec (some "sheet-1")).2.1 (by decide),
   (read_endpoint_response_spec none).2.2.1 (.ok (some [])) (by decide),
   (read_endpoint_response_spec (some "sheet-1")).2.2.2.1 "invalid_grant"⟩

/-- C4: `onSubmit` calls `reset()` exactly when the submit request
succeeded; on failure the form fields are unchanged and a failure banner
is set, on success every field is cleared and a success banner is set. -/
theorem reset_iff_success :
    ∀ (tab : TabType) (f : FormData) (r : SubmitFetchOutcome),
    ((onSubmitEffects tab r).resetCalls = 1 ↔ r.isOk = true) ∧
    (r.isOk = false →
      formAfterSubmit f (onSubmitEffects tab r) = f ∧
      ∃ m, (onSubmitEffects tab r).banner = some (false, m)) ∧
    (r.isOk = true →
      formAfterSubmit f (onSubmitEffects tab r) = emptyFormData ∧
      ∃ m, (onSubmitEffects tab r).banner = some (true, m)) := by
  intro tab f r
  cases r <;>
    simp [onSubmitEffects, formAfterSubmit, SubmitFetchOutcome.isOk]

/-- Witness for C4: a failed request leaves a populated form untouched,
a succeeding one clears it. -/
theorem reset_iff_success_witness :
    formAfterSubmit sampleForm
      (onSubmitEffects .add (.threw "Network error")) = sampleForm ∧
    formAfterSubmit sampleForm
      (onSubmitEffects .add (.ok none)) = emptyFormData :=
  ⟨((reset_iff_success .add sampleForm (.threw "Network error")).2.1 rfl).1,
   ((reset_iff_success .add sampleForm (.ok none)).2.2 rfl).1⟩

/-- C9: every falsy cell value — an absent cell, `null`, the empty
string, the number `0`, the boolean `false` — is replaced by the empty
string in the displayed record, so a quantity cell holding the number `0`
is indistinguishable from a missing quantity cell. -/
theorem falsy_cells_blank :
    (∀ c : Cell, c.truthy = false → c.orEmpty = Cell.str "") ∧
    (Cell.num 0).orEmpty = Cell.str "" ∧
    (Cell.bool false).orEmpty = Cell.str "" ∧
    (Cell.str "").orEmpty = Cell.str "" ∧
    Cell.null.orEmpty = Cell.str "" ∧
    Cell.undefined.orEmpty = Cell.str "" ∧
    ∀ (row : List Cell) (i : Nat), rowGet row 6 = Cell.num 0 →
      (mapRow row i).quantity = Cell.str "" ∧
      (mapRow row i).quantity = (mapRow (row.take 6) i).quantity := by
  refine ⟨?_, rfl, rfl, rfl, rfl, rfl, ?_⟩
  · intro c h
    simp [Cell.orEmpty, h]
  · intro row i h
    have hshort : (rowGet (row.take 6) 6).orEmpty = Cell.str "" := by
      have : rowGet (row.take 6) 6 = Cell.undefined := by
        unfold rowGet
        exact List.getD_eq_default _ _ (le_trans (List.length_take_le 6 row) (by omega))
      rw [this]
      rfl
    constructor
    · show (rowGet row 6).orEmpty = Cell.str ""
      rw [h]
      rfl
    · show (rowGet row 6).orEmpty = (rowGet (row.take 6) 6).orEmpty
      rw [h, hshort]
      rfl

/-- Witness for C9: a concrete row whose quantity cell holds the number
`0` displays an empty quantity. -/
theorem falsy_cells_blank_witness :
    (Cell.bool false).orEmpty = Cell.str "" ∧
    (mapRow [Cell.str "J001", Cell.str "Acme", Cell.str "Flyers"
            , Cell.str "HQ", Cell.str "Lee", Cell.str "A4", Cell.num 0
            , Cell.str "Print"] 0).quantity = Cell.str "" :=
  ⟨falsy_cells_blank.1 (Cell.bool false) rfl,
   (falsy_cells_blank.2.2.2.2.2.2
     [Cell.str "J001", Cell.str "Acme", Cell.str "Flyers", Cell.str "HQ"
     , Cell.str "Lee", Cell.str "A4", Cell.num 0, Cell.str "Print"]
     0 rfl).1⟩

/-- A session in which the user visited the view tab and then returned to
the add tab. -/
def viewThenAddSession : Session :=
  switchTab (switchTab initSession .view) .add

/-- C3 counterexample: in a session where the view tab has been visited
before but the add tab is active again, a successful submission triggers
no re-fetch at all — the code's condition is `activeTab === 'view'`, not
"view visited before". -/
theorem refetch_visited_counterexample :
    viewThenAddSession.visitedView = true ∧
    submitFetchDelta viewThenAddSession ≠ 1 := by
  decide

/-- Tab-switch traces starting from the initial session. -/
def runTabs (ts : List TabType) : Session :=
  ts.foldl switchTab initSession

/-- Preservation by `switchTab`: if the view tab has never been visited, the
active tab is the add tab. -/
theorem switchTab_preserves_unvisited (s : Session) (t : TabType)
    (h : s.visitedView = false → s.activeTab = .add) :
    (switchTab s t).visitedView = false → (switchTab s t).activeTab = .add := by
  unfold switchTab
  by_cases ht : t = s.activeTab
  · simpa [ht] using h
  · cases t <;> simp [ht]

/-- In every reachable session, an unvisited view tab means the add tab
is active. -/
theorem runTabs_unvisited_add (ts : List TabType) :
    (runTabs ts).visitedView = false → (runTabs ts).activeTab = .add := by
  unfold runTabs
  suffices h : ∀ (s : Session), (s.visitedView = false → s.activeTab = .add) →
      ((ts.foldl switchTab s).visitedView = false →
       (ts.foldl switchTab s).activeTab = .add) by
    exact h initSession (fun _ => rfl)
  induction ts with
  | nil => intro s hs; simpa using hs
  | cons t ts ih =>
    intro s hs
    exact ih (switchTab s t) (switchTab_preserves_unvisited s t hs)

/-- C3 amended: over every reachable session, a successful submission
triggers exactly one re-fetch when the view tab is the active tab at that
moment and none otherwise; in particular a session that never visited the
view tab triggers none. -/
theorem refetch_active_view_spec :
    ∀ ts : List TabType,
    submitFetchDelta (runTabs ts) =
      (if (runTabs ts).activeTab = .view then 1 else 0) ∧
    ((runTabs ts).visitedView = false → submitFetchDelta (runTabs ts) = 0) ∧
    ∀ m : Option String,
      (onSubmitEffects (runTabs ts).activeTab (.ok m)).fetchCalls =
        (if (runTabs ts).activeTab = .view then 1 else 0) := by
  intro ts
  have hdelta : ∀ s : Session,
      submitFetchDelta s = (if s.activeTab = .view then 1 else 0) := by
    intro s
    simp [submitFetchDelta, submitSuccess]
  refine ⟨hdelta _, ?_, ?_⟩
  · intro hv
    rw [hdelta, runTabs_unvisited_add ts hv]
    simp
  · intro m
    simp [onSubmitEffects]

/-- Witness for C3's amended claim: the never-visited initial session
(empty trace) triggers no re-fetch, and the counterexample session's
delta matches its active tab. -/
theorem refetch_active_view_spec_witness :
    submitFetchDelta (runTabs []) = 0 ∧
    submitFetchDelta (runTabs [.view]) = 1 :=
  ⟨(refetch_active_view_spec []).2.1 rfl,
   (refetch_active_view_spec [.view]).1.trans (by decide)⟩

/-- The rendering `toISOString` always produces exactly 24 characters
(`YYYY-MM-DDTHH:mm:ss.sssZ`). -/
theorem toISOString_length (t : DateTime) : (toISOString t).length = 24 := by
  simp [toISOString, pad4, pad3, pad2, String.length_append, String.length_mk]
  rfl

/-- The rendered submission timestamp is never the empty string. -/
theorem toISOString_ne_empty (t : DateTime) : toISOString t ≠ "" := by
  intro h
  have hl := toISOString_length t
  rw [h] at hl
  exact absurd hl (by decide)

/-- C1: for every parsed JSON body (remark possibly absent) the write
endpoint builds exactly one 14-element row in the fixed column order,
with the empty string in the remark column when `remark` is absent and
the non-empty server-rendered ISO timestamp in the last column, and
passes that single row as the append payload. -/
theorem submit_row_construction :
    ∀ (body : FormData) (now : DateTime),
    (buildRowData body (toISOString now)).length = 14 ∧
    (buildRowData body (toISOString now)).getD 0 "?" = body.jobNumber ∧
    (buildRowData body (toISOString now)).getD 1 "?" = body.customerName ∧
    (buildRowData body (toISOString now)).getD 2 "?" = body.jobName ∧
    (buildRowData body (toISOString now)).getD 3 "?" = body.jobLocation ∧
    (buildRowData body (toISOString now)).getD 4 "?" = body.salesPerson ∧
    (buildRowData body (toISOString now)).getD 5 "?" = body.jobSize ∧
    (buildRowData body (toISOString now)).getD 6 "?" = body.quantity ∧
    (buildRowData body (toISOString now)).getD 7 "?" = body.jobCategory ∧
    (buildRowData body (toISOString now)).getD 8 "?" = body.jobBookedDate ∧
    (buildRowData body (toISOString now)).getD 9 "?" = body.jobStatus ∧
    (buildRowData body (toISOString now)).getD 10 "?" = body.deliveryDate ∧
    (buildRowData body (toISOString now)).getD 11 "?" = body.deliveryDetails ∧
    (buildRowData body (toISOString now)).getD 12 "?" = jsOrStr body.remark "" ∧
    (body.remark = none → (buildRowData body (toISOString now)).getD 12 "?" = "") ∧
    (buildRowData body (toISOString now)).getD 13 "?" = toISOString now ∧
    toISOString now ≠ "" ∧
    (postAppendCall body now).values = [buildRowData body (toISOString now)] ∧
    (postAppendCall body now).range = "Sheet1!A:N" := by
  intro body now
  refine ⟨rfl, rfl, rfl, rfl, rfl, rfl, rfl, rfl, rfl, rfl, rfl, rfl, rfl,
          rfl, ?_, rfl, toISOString_ne_empty now, rfl, rfl⟩
  intro h
  simp [buildRowData, h, jsOrStr]

/-- Witness for C1 at a concrete remark-less body and timestamp: the row
is the exact 14-element list with an empty remark column. -/
theorem submit_row_construction_witness :
    sampleForm.remark = none ∧
    (buildRowData sampleForm (toISOString sampleNow)).getD 12 "?" = "" ∧
    (buildRowData sampleForm (toISOString sampleNow)).length = 14 :=
  ⟨rfl,
   (submit_row_construction sampleForm sampleNow).2.2.2.2.2.2.2.2.2.2.2.2.2.2.1 rfl,
   (submit_row_construction sampleForm sampleNow).1⟩

/-- C2 counterexample: a present cell holding the number `0` is not
"taken positionally" into the displayed record — the reshaping replaces
it by the empty string, because `row[i] || ''` blanks every falsy cell,
not only missing ones. -/
theorem fetch_reshape_positional_counterexample :
    rowGet [Cell.num 0] 0 = Cell.num 0 ∧
    (fetchSheetRows [[Cell.str "Job#"], [Cell.num 0]]).map SheetRow.jobNumber =
      [Cell.str ""] ∧
    Cell.str "" ≠ Cell.num 0 := by
  decide

/-- Length of the mapped row list. -/
theorem mapRowsFrom_length (rs : List (List Cell)) (k : Nat) :
    (mapRowsFrom k rs).length = rs.length := by
  induction rs generalizing k with
  | nil => rfl
  | cons r rs ih => simp [mapRowsFrom, ih]

/-- Indexing into the mapped row list. -/
theorem mapRowsFrom_getElem? (rs : List (List Cell)) (k i : Nat) :
    (mapRowsFrom k rs)[i]? = (rs[i]?).map (fun r => mapRow r (k + i)) := by
  induction rs generalizing k i with
  | nil => simp [mapRowsFrom]
  | cons r rs ih =>
    cases i with
    | zero => simp [mapRowsFrom]
    | succ n =>
      have harith : k + 1 + n = k + (n + 1) := by omega
      simp [mapRowsFrom, ih (k + 1) n, harith]

/-- A sample read-endpoint payload: one header row and one data row. -/
def demoSheetData : List (List Cell) :=
  [ [Cell.str "Job#", Cell.str "Customer"]
  , [Cell.str "J001", Cell.str "Acme"] ]

/-- A read-endpoint payload holding only the header row. -/
def headerOnlySheetData : List (List Cell) :=
  [[Cell.str "Job#", Cell.str "Customer"]]

/-- C2 amended: the reshaping discards row 0 and produces exactly
`n - 1` records; record `i` is built by `mapRow` from raw row `i + 1`
(so its `sno` is the decimal string of `i + 1` and its 13 fields come
positionally from cells 0–12, with any missing cell — and any falsy cell
value — defaulting to the empty string); the header row's content never
influences the result; and a header-only (or empty) array yields zero
records and the empty-state display. -/
theorem fetch_reshape_spec :
    ∀ (data : List (List Cell)),
    (fetchSheetRows data).length = data.length - 1 ∧
    (∀ i : Nat, (fetchSheetRows data)[i]? =
      (data[i + 1]?).map (fun row => mapRow row i)) ∧
    (∀ (i : Nat) (r : SheetRow), (fetchSheetRows data)[i]? = some r →
      r.sno = toString (i + 1)) ∧
    (∀ (h1 h2 : List Cell) (rest : List (List Cell)),
      fetchSheetRows (h1 :: rest) = fetchSheetRows (h2 :: rest)) ∧
    (data.length ≤ 1 →
      fetchSheetRows data = [] ∧
      showsEmptyState (fetchSheetRows data) = true) := by
  intro data
  have hget : ∀ i : Nat, (fetchSheetRows data)[i]? =
      (data[i + 1]?).map (fun row => mapRow row i) := by
    intro i
    unfold fetchSheetRows
    rw [mapRowsFrom_getElem?]
    simp [List.getElem?_drop]
  refine ⟨?_, hget, ?_, ?_, ?_⟩
  · unfold fetchSheetRows
    rw [mapRowsFrom_length]
    simp
  · intro i r hr
    rw [hget i] at hr
    rcases hrow : data[i + 1]? with _ | row
    · rw [hrow] at hr
      simp at hr
    · rw [hrow] at hr
      simp at hr
      rw [← hr]
      rfl
  · intro h1 h2 rest
    unfold fetchSheetRows
    simp
  · intro hlen
    have hempty : data.drop 1 = [] := by
      cases data with
      | nil => rfl
      | cons h rest =>
        have hr : rest = [] := by
          cases rest with
          | nil => rfl
          | cons a t => simp at hlen
        show rest = []
        exact hr
    unfold fetchSheetRows
    rw [hempty]
    exact ⟨rfl, rfl⟩

/-- Witness for C2's amended claim: the two-row payload yields exactly
one record with `sno = "1"`, and the header-only payload yields zero
records and the empty state. -/
theorem fetch_reshape_spec_witness :
    (fetchSheetRows demoSheetData).length = demoSheetData.length - 1 ∧
    (mapRow [Cell.str "J001", Cell.str "Acme"] 0).sno = toString (0 + 1) ∧
    fetchSheetRows headerOnlySheetData = [] ∧
    showsEmptyState (fetchSheetRows headerOnlySheetData) = true :=
  ⟨(fetch_reshape_spec demoSheetData).1,
   (fetch_reshape_spec demoSheetData).2.2.1 0
     (mapRow [Cell.str "J001", Cell.str "Acme"] 0) rfl,
   ((fetch_reshape_spec headerOnlySheetData).2.2.2.2 (by decide)).1,
   ((fetch_reshape_spec headerOnlySheetData).2.2.2.2 (by decide)).2⟩

/-- The mapping `mapRow` only reads cells 0 through 12 of its row. -/
theorem mapRow_congr (r1 r2 : List Cell) (i : Nat)
    (h : ∀ j, j ≤ 12 → rowGet r1 j = rowGet r2 j) :
    mapRow r1 i = mapRow r2 i := by
  simp [mapRow, h 0 (by omega), h 1 (by omega), h 2 (by omega),
        h 3 (by omega), h 4 (by omega), h 5 (by omega), h 6 (by omega),
        h 7 (by omega), h 8 (by omega), h 9 (by omega), h 10 (by omega),
        h 11 (by omega), h 12 (by omega)]

/-- Mapping two row lists that agree on cells 0–12 of corresponding rows
yields the same records. -/
theorem mapRowsFrom_congr :
    ∀ (rs1 rs2 : List (List Cell)) (k : Nat),
    rs1.length = rs2.length →
    (∀ i j, j ≤ 12 → rowGet (rs1.getD i []) j = rowGet (rs2.getD i []) j) →
    mapRowsFrom k rs1 = mapRowsFrom k rs2 := by
  intro rs1
  induction rs1 with
  | nil =>
    intro rs2 k hlen _
    cases rs2 with
    | nil => rfl
    | cons r2 t2 => simp at hlen
  | cons r1 t1 ih =>
    intro rs2 k hlen hagree
    cases rs2 with
    | nil => simp at hlen
    | cons r2 t2 =>
      unfold mapRowsFrom
      rw [mapRow_congr r1 r2 k (fun j hj => by simpa using hagree 0 j hj),
          ih t2 (k + 1) (by simpa using hlen)
            (fun i j hj => by simpa using hagree (i + 1) j hj)]

/-- C10: two read-endpoint payloads whose post-header rows agree on cells
0 through 12 display identically — the submission-timestamp column
(index 13) and the extra columns of the `A:O` read range never influence
any displayed record. -/
theorem extra_columns_no_influence :
    ∀ (d1 d2 : List (List Cell)),
    (d1.drop 1).length = (d2.drop 1).length →
    (∀ i j, j ≤ 12 →
      rowGet ((d1.drop 1).getD i []) j = rowGet ((d2.drop 1).getD i []) j) →
    fetchSheetRows d1 = fetchSheetRows d2 :=
  fun d1 d2 hlen hagree => mapRowsFrom_congr (d1.drop 1) (d2.drop 1) 0 hlen hagree

/-- Thirteen visible cells of a sample data row. -/
def visibleCells : List Cell :=
  [ Cell.str "J001", Cell.str "Acme", Cell.str "Flyers", Cell.str "HQ"
  , Cell.str "Lee", Cell.str "A4", Cell.str "150", Cell.str "Print"
  , Cell.str "2024-01-15", Cell.str "Pending", Cell.str "2024-02-01"
  , Cell.str "Courier", Cell.str "Urgent" ]

/-- A payload whose data row carries one submission timestamp in column
13. -/
def timestampedDataA : List (List Cell) :=
  [[Cell.str "Job#"], visibleCells ++ [Cell.str "2024-01-15T09:30:05.250Z"]]

/-- The same payload with a different column-13 timestamp. -/
def timestampedDataB : List (List Cell) :=
  [[Cell.str "Job#"], visibleCells ++ [Cell.str "2030-12-31T23:59:59.999Z"]]

/-- Witness for C10: two payloads differing only in the timestamp column
display identically. -/
theorem extra_columns_no_influence_witness :
    timestampedDataA ≠ timestampedDataB ∧
    fetchSheetRows timestampedDataA = fetchSheetRows timestampedDataB :=
  ⟨by decide,
   extra_columns_no_influence timestampedDataA timestampedDataB rfl (by
     intro i j hj
     match i with
     | 0 => interval_cases j <;> rfl
     | n + 1 => rfl)⟩

/-! ## Date normalization: the parse/format round trip -/

/-- Does the character sequence have the `YYYY-MM-DD` shape (four digits,
dash, two digits, dash, two digits)? -/
def isoDateShapeList : List Char → Bool
  | [y1, y2, y3, y4, h1, m1, m2, h2, d1, d2] =>
    isDigit y1 && isDigit y2 && isDigit y3 && isDigit y4 &&
    h1 = '-' && isDigit m1 && isDigit m2 && h2 = '-' &&
    isDigit d1 && isDigit d2
  | _ => false

/-- Is the string in ISO `YYYY-MM-DD` form? -/
def isoDateShape (s : String) : Bool :=
  isoDateShapeList s.data

/-- A digit character codes between 48 and 57. -/
theorem isDigit_bounds (c : Char) (h : isDigit c = true) :
    48 ≤ c.toNat ∧ c.toNat ≤ 57 := by
  unfold isDigit at h
  simp only [Bool.and_eq_true, decide_eq_true_eq] at h
  exact h

/-- A digit character's value is at most 9. -/
theorem digitVal_le (c : Char) (h : isDigit c = true) : digitVal c ≤ 9 := by
  obtain ⟨h1, h2⟩ := isDigit_bounds c h
  unfold digitVal
  omega

/-- The digit `digitChar` only depends on its argument modulo 10. -/
theorem digitChar_congr (x y : Nat) (h : x % 10 = y % 10) :
    digitChar x = digitChar y := by
  unfold digitChar
  rw [h]

/-- Rendering the value of a digit character gives the character back. -/
theorem digitChar_digitVal (c : Char) (hc : isDigit c = true) :
    digitChar (digitVal c) = c := by
  unfold digitChar
  obtain ⟨h1, h2⟩ := isDigit_bounds c hc
  have he : 48 + digitVal c % 10 = c.toNat := by unfold digitVal; omega
  rw [he]
  exact Char.ofNat_toNat c

/-- Applying `pad2` to a two-digit decomposition renders the two digits. -/
theorem pad2_digits (a b : Nat) (hb : b ≤ 9) :
    pad2 (a * 10 + b) = String.mk [digitChar a, digitChar b] := by
  unfold pad2
  rw [digitChar_congr ((a * 10 + b) / 10) a (by omega),
      digitChar_congr (a * 10 + b) b (by omega)]

/-- Applying `pad4` to a four-digit decomposition renders the four digits. -/
theorem pad4_digits (a b c d : Nat) (hb : b ≤ 9) (hc : c ≤ 9) (hd : d ≤ 9) :
    pad4 (a * 1000 + b * 100 + c * 10 + d) =
      String.mk [digitChar a, digitChar b, digitChar c, digitChar d] := by
  unfold pad4
  rw [digitChar_congr ((a * 1000 + b * 100 + c * 10 + d) / 1000) a (by omega),
      digitChar_congr ((a * 1000 + b * 100 + c * 10 + d) / 100) b (by omega),
      digitChar_congr ((a * 1000 + b * 100 + c * 10 + d) / 10) c (by omega),
      digitChar_congr (a * 1000 + b * 100 + c * 10 + d) d (by omega)]

/-- A successfully parsed date string is rendered back verbatim by the
`toISOString` date part: the round trip is the identity. -/
theorem formatIsoDate_parse (s : String) (d : CivilDate)
    (h : parseIsoDate s = some d) : formatIsoDate d = s := by
  obtain ⟨l⟩ := s
  rcases l with _ | ⟨y1, _ | ⟨y2, _ | ⟨y3, _ | ⟨y4, _ | ⟨hc1, _ | ⟨m1, _ | ⟨m2, _ | ⟨hc2, _ | ⟨d1, _ | ⟨d2, _ | ⟨x, rest⟩⟩⟩⟩⟩⟩⟩⟩⟩⟩⟩ <;>
    try exact Option.noConfusion h
  replace h : parseIsoDateList [y1, y2, y3, y4, hc1, m1, m2, hc2, d1, d2] =
      some d := h
  simp only [parseIsoDateList] at h
  split_ifs at h with hcond <;>
    try exact Option.noConfusion h
  all_goals
    simp only [Bool.and_eq_true, decide_eq_true_eq] at hcond
    obtain ⟨⟨⟨⟨⟨⟨⟨⟨⟨hy1, hy2⟩, hy3⟩, hy4⟩, hdash1⟩, hm1⟩, hm2⟩, hdash2⟩, hg1⟩, hg2⟩ := hcond
    injection h with h
    subst h
    unfold formatIsoDate
    rw [show ({ year := digitVal y1 * 1000 + digitVal y2 * 100 + digitVal y3 * 10 + digitVal y4,
                month := digitVal m1 * 10 + digitVal m2,
                day := digitVal d1 * 10 + digitVal d2 } : CivilDate).year =
          digitVal y1 * 1000 + digitVal y2 * 100 + digitVal y3 * 10 + digitVal y4 from rfl]
    rw [pad4_digits _ _ _ _ (digitVal_le y2 hy2) (digitVal_le y3 hy3)
          (digitVal_le y4 hy4),
        pad2_digits _ _ (digitVal_le m2 hm2),
        pad2_digits _ _ (digitVal_le d2 hg2),
        digitChar_digitVal y1 hy1, digitChar_digitVal y2 hy2,
        digitChar_digitVal y3 hy3, digitChar_digitVal y4 hy4,
        digitChar_digitVal m1 hm1, digitChar_digitVal m2 hm2,
        digitChar_digitVal d1 hg1, digitChar_digitVal d2 hg2]
    subst hdash1
    subst hdash2
    rfl

/-- A successfully parsed date string is non-empty. -/
theorem parse_some_ne_empty (s : String) (d : CivilDate)
    (h : parseIsoDate s = some d) : s ≠ "" := by
  intro he
  subst he
  exact Option.noConfusion h

/-- A successfully parsed date string has the `YYYY-MM-DD` shape. -/
theorem parse_some_shape (s : String) (d : CivilDate)
    (h : parseIsoDate s = some d) : isoDateShape s = true := by
  obtain ⟨l⟩ := s
  rcases l with _ | ⟨y1, _ | ⟨y2, _ | ⟨y3, _ | ⟨y4, _ | ⟨hc1, _ | ⟨m1, _ | ⟨m2, _ | ⟨hc2, _ | ⟨d1, _ | ⟨d2, _ | ⟨x, rest⟩⟩⟩⟩⟩⟩⟩⟩⟩⟩⟩ <;>
    try exact Option.noConfusion h
  replace h : parseIsoDateList [y1, y2, y3, y4, hc1, m1, m2, hc2, d1, d2] =
      some d := h
  simp only [parseIsoDateList] at h
  split_ifs at h with hcond <;>
    try exact Option.noConfusion h
  all_goals
    show isoDateShapeList [y1, y2, y3, y4, hc1, m1, m2, hc2, d1, d2] = true
    simp only [isoDateShapeList]
    exact hcond

/-- C8: when both date fields parse as valid `YYYY-MM-DD` date strings,
the client-side `formattedData` construction is the identity on them (so
they reach the write endpoint normalized to ISO `YYYY-MM-DD` shape), and
every non-date field is passed through verbatim. -/
theorem date_normalization_spec :
    ∀ (f : FormData) (db dd : CivilDate),
    parseIsoDate f.jobBookedDate = some db →
    parseIsoDate f.deliveryDate = some dd →
    jsDateToIsoDatePart f.jobBookedDate = some f.jobBookedDate ∧
    jsDateToIsoDatePart f.deliveryDate = some f.deliveryDate ∧
    formatFormData f = some f ∧
    isoDateShape f.jobBookedDate = true ∧
    isoDateShape f.deliveryDate = true ∧
    (∀ f2 g : FormData, formatFormData f2 = some g →
      g.jobNumber = f2.jobNumber ∧ g.customerName = f2.customerName ∧
      g.jobName = f2.jobName ∧ g.jobLocation = f2.jobLocation ∧
      g.salesPerson = f2.salesPerson ∧ g.jobSize = f2.jobSize ∧
      g.quantity = f2.quantity ∧ g.jobCategory = f2.jobCategory ∧
      g.jobStatus = f2.jobStatus ∧ g.deliveryDetails = f2.deliveryDetails ∧
      g.remark = f2.remark) := by
  intro f db dd hb hd
  have hb' : jsDateToIsoDatePart f.jobBookedDate = some f.jobBookedDate := by
    unfold jsDateToIsoDatePart
    rw [hb]
    exact congrArg some (formatIsoDate_parse f.jobBookedDate db hb)
  have hd' : jsDateToIsoDatePart f.deliveryDate = some f.deliveryDate := by
    unfold jsDateToIsoDatePart
    rw [hd]
    exact congrArg some (formatIsoDate_parse f.deliveryDate dd hd)
  refine ⟨hb', hd', ?_, parse_some_shape _ _ hb, parse_some_shape _ _ hd, ?_⟩
  · unfold formatFormData
    rw [if_neg (parse_some_ne_empty _ _ hb), if_neg (parse_some_ne_empty _ _ hd),
        hb', hd']
    rfl
  · intro f2 g hg
    unfold formatFormData at hg
    rcases hjb : (if f2.jobBookedDate = "" then some ""
        else jsDateToIsoDatePart f2.jobBookedDate) with _ | jb
    · rw [hjb] at hg
      exact Option.noConfusion hg
    · rw [hjb] at hg
      rcases hdd : (if f2.deliveryDate = "" then some ""
          else jsDateToIsoDatePart f2.deliveryDate) with _ | dd2
      · rw [hdd] at hg
        exact Option.noConfusion hg
      · rw [hdd] at hg
        injection hg with hg
        subst hg
        exact ⟨rfl, rfl, rfl, rfl, rfl, rfl, rfl, rfl, rfl, rfl, rfl⟩

/-- Witness for C8 at the sample form (`2024-01-15`, `2024-02-01`):
`formattedData` is the identity, and the date fields have the ISO shape. -/
theorem date_normalization_spec_witness :
    formatFormData sampleForm = some sampleForm ∧
    isoDateShape sampleForm.jobBookedDate = true ∧
    isoDateShape sampleForm.deliveryDate = true :=
  ⟨(date_normalization_spec sampleForm ⟨2024, 1, 15⟩ ⟨2024, 2, 1⟩
      (by decide) (by decide)).2.2.1,
   (date_normalization_spec sampleForm ⟨2024, 1, 15⟩ ⟨2024, 2, 1⟩
      (by decide) (by decide)).2.2.2.1,
   (date_normalization_spec sampleForm ⟨2024, 1, 15⟩ ⟨2024, 2, 1⟩
      (by decide) (by decide)).2.2.2.2.1⟩
